import Mathlib

/-!
Shallow embedding of the tool-CRUD + semantic-search service
(`app/crud.py`, `app/vector_db.py`, `app/main.py`).

Modelling conventions:
* The relational Record Store is a `DB` value: a list of `Tool` rows, a list
  of `SearchHistory` rows in insertion order (timestamps are monotone, so
  `ORDER BY created_at DESC` is list reversal), and the two id sequences.
* The embedding function is deterministic on its input text, so a stored
  vector is identified by the text it embeds (`VecEntry.text`); cosine
  similarity between a query and an entry is an abstract parameter
  `sim : String → String → ℚ` on the two texts.
* Availability of the embedding provider is a parameter
  `provider : String → Option Unit` (`none` = the provider raises);
  availability of the qdrant client write is a Boolean `client_ok`;
  success of the history-insert commit is a Boolean `commit_ok`.
* Each Python `except` block that swallows an error and returns a default
  is modelled by the corresponding branch returning that default.
-/

/-- A row of the `tools` table (`app/models.py`, class `Tool`).
`tool_metadata` is an arbitrary JSON object, modelled as key/value pairs. -/
structure Tool where
  id : Nat
  name : String
  description : String
  tags : List String
  tool_metadata : List (String × String)
deriving DecidableEq, Repr

/-- Request body for creating a tool (`app/schemas.py`, `ToolCreate`). -/
structure ToolCreate where
  name : String
  description : String
  tags : List String
  tool_metadata : List (String × String)
deriving DecidableEq, Repr

/-- Request body for updating a tool (`app/schemas.py`, `ToolUpdate`):
same fields as `ToolCreate`. -/
abbrev ToolUpdate := ToolCreate

/-- One element of a search-result list: the dict built in
`vector_db.search_tools` and stored in history rows.  Stored history results
are JSON dicts read back with `result.get('id')`, so `id` is optional. -/
structure SearchResult where
  id : Option Nat
  name : String
  description : String
  tags : List String
  score : ℚ
deriving DecidableEq, Repr

/-- A row of the `search_history` table (`app/models.py`, `SearchHistory`). -/
structure SearchHistory where
  id : Nat
  query : String
  results : List SearchResult
deriving DecidableEq, Repr

/-- The relational Record Store.  `history` is kept in insertion order
(oldest first); `next_tool_id` / `next_history_id` model the PostgreSQL
sequences assigning primary keys. -/
structure DB where
  tools : List Tool
  history : List SearchHistory
  next_tool_id : Nat
  next_history_id : Nat
deriving DecidableEq, Repr

/-- A point of the qdrant collection (`PointStruct` built in
`vector_db.upsert_tool`): point id, the text whose embedding is the stored
vector, and the payload fields `name`, `description`, `tags`, `tool_id`. -/
structure VecEntry where
  id : Nat
  text : String
  name : String
  description : String
  tags : List String
  tool_id : Nat
deriving DecidableEq, Repr

/-- Error raised by an endpoint (`HTTPException` in `app/main.py`),
identified by status class and detail string. -/
inductive ApiError where
  | badRequest (detail : String)
  | notFound (detail : String)
deriving DecidableEq, Repr

/-- Outcome of an endpoint call: a response body or a raised `ApiError`. -/
inductive ApiResult (α : Type) where
  | ok (value : α)
  | err (e : ApiError)
deriving DecidableEq, Repr

/-- Response body of the search endpoint (`app/schemas.py`, `SearchResponse`). -/
structure SearchResponse where
  query : String
  results : List SearchResult
deriving DecidableEq, Repr

namespace vector_db

/-- The text embedded for a tool, from `vector_db.upsert_tool`:
`text = f"{name} {description} {' '.join(tags)}"`. -/
def embed_text (name description : String) (tags : List String) : String :=
  name ++ " " ++ description ++ " " ++ String.intercalate " " tags

/-- Idempotent upsert-by-id into the qdrant collection: re-upsert of an
existing point id overwrites it, otherwise the point is appended. -/
def upsert_point (index : List VecEntry) (e : VecEntry) : List VecEntry :=
  if index.any (fun x => x.id == e.id) then
    index.map (fun x => if x.id == e.id then e else x)
  else
    index ++ [e]

/-- Model of `vector_db.upsert_tool`: embed the combined text and upsert the
point.  Returns the new index and the Boolean result; an embedding failure
(`provider _ = none`) or a failed client call (`client_ok = false`) is caught
and reported as `false` with the index unchanged. -/
def upsert_tool (provider : String → Option Unit) (client_ok : Bool)
    (index : List VecEntry) (tool_id : Nat) (name description : String)
    (tags : List String) : List VecEntry × Bool :=
  match provider (embed_text name description tags) with
  | none => (index, false)
  | some _ =>
    if client_ok then
      (upsert_point index
        { id := tool_id, text := embed_text name description tags,
          name := name, description := description, tags := tags,
          tool_id := tool_id }, true)
    else
      (index, false)

/-- Insert into a list kept in descending order by `ge`. -/
def insert_desc (ge : α → α → Bool) (p : α) : List α → List α
  | [] => [p]
  | q :: qs => if ge p q then p :: q :: qs else q :: insert_desc ge p qs

/-- Sort a list into descending order by `ge` (insertion sort). -/
def sort_desc (ge : α → α → Bool) : List α → List α
  | [] => []
  | p :: ps => insert_desc ge p (sort_desc ge ps)

/-- Modelled from the spec: the external Vector Index search interface
(`search(vector, limit, score_floor)`, spec section 6) — the qdrant client is
not code of this repository.  Candidates are scored by `sim` against the
query, those below `score_threshold` are discarded regardless of rank, the
rest are ordered by descending score and the first `limit` returned. -/
def qdrant_search (sim : String → String → ℚ) (index : List VecEntry)
    (query : String) (limit : Nat) (score_threshold : ℚ) :
    List (VecEntry × ℚ) :=
  ((sort_desc (fun a b => b.2 ≤ a.2)
      ((index.map (fun e => (e, sim query e.text))).filter
        (fun p => score_threshold ≤ p.2))).take limit)

/-- The score floor passed as `score_threshold=0.3` in
`vector_db.search_tools`: the rational 3/10, given as a literal numerator
and denominator so that comparisons against it compute. -/
def score_threshold : ℚ := ⟨3, 10, by norm_num, by norm_num⟩

/-- Model of `vector_db.search_tools`: embed the query, search the index
with the limit and the 0.3 score floor, and build the result dicts from the
payloads.  Any failure (embedding unreachable) is caught and yields `[]`. -/
def search_tools (provider : String → Option Unit)
    (sim : String → String → ℚ) (index : List VecEntry)
    (query : String) (limit : Nat) : List SearchResult :=
  match provider query with
  | none => []
  | some _ =>
    (qdrant_search sim index query limit score_threshold).map
      (fun p =>
        { id := some p.1.tool_id, name := p.1.name,
          description := p.1.description, tags := p.1.tags, score := p.2 })

/-- Model of `vector_db.delete_tool`: delete the point with the given id;
a failed client call is caught and reported as `false`, index unchanged. -/
def delete_tool (client_ok : Bool) (index : List VecEntry) (tool_id : Nat) :
    List VecEntry × Bool :=
  if client_ok then
    (index.filter (fun e => e.id != tool_id), true)
  else
    (index, false)

end vector_db

namespace crud

/-- Model of `crud.get_tool`: first row with the given id, `None` if absent. -/
def get_tool (db : DB) (tool_id : Nat) : Option Tool :=
  db.tools.find? (fun t => t.id == tool_id)

/-- Model of `crud.get_tool_by_name`: first row with the given name. -/
def get_tool_by_name (db : DB) (name : String) : Option Tool :=
  db.tools.find? (fun t => t.name == name)

/-- Model of `crud.get_tools`: rows ordered by id, paginated. -/
def get_tools (db : DB) (skip limit : Nat) : List Tool :=
  (((vector_db.sort_desc (fun a b => a.id ≤ b.id) db.tools).drop skip).take
    limit)

/-- Model of `crud.create_tool`.  A duplicate name raises `IntegrityError`
on commit: the insert is rolled back and `None` returned.  Otherwise the row
is committed with the next sequence id, the tool is upserted into the vector
index, a failed upsert is only logged, and the row is returned. -/
def create_tool (provider : String → Option Unit) (client_ok : Bool)
    (db : DB) (index : List VecEntry) (tool : ToolCreate) :
    DB × List VecEntry × Option Tool :=
  if db.tools.any (fun t => t.name == tool.name) then
    (db, index, none)
  else
    let db_tool : Tool :=
      { id := db.next_tool_id, name := tool.name,
        description := tool.description, tags := tool.tags,
        tool_metadata := tool.tool_metadata }
    let db' : DB :=
      { db with tools := db.tools ++ [db_tool],
                next_tool_id := db.next_tool_id + 1 }
    let up := vector_db.upsert_tool provider client_ok index db_tool.id
      db_tool.name db_tool.description db_tool.tags
    (db', up.1, some db_tool)

/-- Model of `crud.update_tool`.  Returns `None` when the id is absent, and
also `None` (after rollback) when the commit raises `IntegrityError` because
the new name belongs to a different row.  Otherwise the row is rewritten,
the vector index upserted from the refreshed row (failure only logged), and
the row returned. -/
def update_tool (provider : String → Option Unit) (client_ok : Bool)
    (db : DB) (index : List VecEntry) (tool_id : Nat) (tool : ToolUpdate) :
    DB × List VecEntry × Option Tool :=
  match get_tool db tool_id with
  | none => (db, index, none)
  | some db_tool =>
    if db.tools.any (fun o => o.name == tool.name && o.id != tool_id) then
      (db, index, none)
    else
      let t' : Tool :=
        { db_tool with name := tool.name, description := tool.description,
                       tags := tool.tags,
                       tool_metadata := tool.tool_metadata }
      let db' : DB :=
        { db with tools :=
            db.tools.map (fun o => if o.id == tool_id then t' else o) }
      let up := vector_db.upsert_tool provider client_ok index t'.id t'.name
        t'.description t'.tags
      (db', up.1, some t')

/-- Model of `crud.delete_tool_db`: `False` when the id is absent; otherwise
the row is deleted and committed, then the vector-index point is deleted
(failure only logged) and `True` returned. -/
def delete_tool_db (client_ok : Bool) (db : DB) (index : List VecEntry)
    (tool_id : Nat) : DB × List VecEntry × Bool :=
  match get_tool db tool_id with
  | none => (db, index, false)
  | some _ =>
    let db' : DB := { db with tools := db.tools.filter (fun t => t.id != tool_id) }
    let del := vector_db.delete_tool client_ok index tool_id
    (db', del.1, true)

/-- The validity test applied to one result dict in `main.semantic_search`,
`crud.create_search_history` and `crud.get_search_history`:
`tool_id = result.get('id'); if tool_id and get_tool(db, tool_id)`.
A missing id or the falsy id `0` short-circuits before the lookup. -/
def result_valid (db : DB) (r : SearchResult) : Bool :=
  match r.id with
  | none => false
  | some n => n != 0 && (get_tool db n).isSome

/-- Model of `crud.create_search_history`: results whose tool no longer
exists are filtered out, then the row is inserted and committed.  A failed
commit (`commit_ok = false`) is caught: rollback, return `None`. -/
def create_search_history (commit_ok : Bool) (db : DB) (query : String)
    (results : List SearchResult) : DB × Option SearchHistory :=
  let valid_results := results.filter (result_valid db)
  if commit_ok then
    let h : SearchHistory :=
      { id := db.next_history_id, query := query, results := valid_results }
    ({ db with history := db.history ++ [h],
               next_history_id := db.next_history_id + 1 }, some h)
  else
    (db, none)

/-- Model of `crud.get_search_history`: rows ordered `created_at DESC`
(= reverse insertion order), paginated, and each returned row's `results`
filtered by the tool-existence test at read time.  The Record Store rows
are not rewritten (the unit of work is never committed). -/
def get_search_history (db : DB) (skip limit : Nat) : List SearchHistory :=
  ((db.history.reverse.drop skip).take limit).map
    (fun h => { h with results := h.results.filter (result_valid db) })

end crud

namespace main

/-- Model of the `POST /tools` endpoint: a `None` from `crud.create_tool`
becomes HTTP 400, otherwise the row is the response. -/
def create_tool (provider : String → Option Unit) (client_ok : Bool)
    (db : DB) (index : List VecEntry) (tool : ToolCreate) :
    DB × List VecEntry × ApiResult Tool :=
  let r := crud.create_tool provider client_ok db index tool
  match r.2.2 with
  | some t => (r.1, r.2.1, .ok t)
  | none =>
    (r.1, r.2.1, .err (.badRequest "Tool with this name already exists"))

/-- Model of the `PUT /tools/tool_id` endpoint: a `None` from
`crud.update_tool` — the id is absent or the name collides — becomes one and
the same HTTP 404 with detail "Tool not found or name already exists". -/
def update_tool (provider : String → Option Unit) (client_ok : Bool)
    (db : DB) (index : List VecEntry) (tool_id : Nat) (tool : ToolUpdate) :
    DB × List VecEntry × ApiResult Tool :=
  let r := crud.update_tool provider client_ok db index tool_id tool
  match r.2.2 with
  | some t => (r.1, r.2.1, .ok t)
  | none =>
    (r.1, r.2.1, .err (.notFound "Tool not found or name already exists"))

/-- Model of the `DELETE /tools/tool_id` endpoint. -/
def delete_tool_endpoint (client_ok : Bool) (db : DB)
    (index : List VecEntry) (tool_id : Nat) :
    DB × List VecEntry × ApiResult String :=
  let r := crud.delete_tool_db client_ok db index tool_id
  if r.2.2 then (r.1, r.2.1, .ok "Tool deleted successfully")
  else (r.1, r.2.1, .err (.notFound "Tool not found"))

/-- Model of the `POST /search` endpoint (`main.semantic_search`): run the
vector search, filter out results whose tool is missing from the Record
Store, save best-effort history, and return the filtered results.  No
branch raises, so the `ApiResult` is always `ok`. -/
def semantic_search (provider : String → Option Unit)
    (sim : String → String → ℚ) (commit_ok : Bool) (db : DB)
    (index : List VecEntry) (query : String) (limit : Nat) :
    DB × ApiResult SearchResponse :=
  let search_results := vector_db.search_tools provider sim index query limit
  let valid_results := search_results.filter (crud.result_valid db)
  let saved := crud.create_search_history commit_ok db query valid_results
  (saved.1, .ok { query := query, results := valid_results })

/-- Model of the `GET /search/history` endpoint: delegates to
`crud.get_search_history`. -/
def get_search_history_endpoint (db : DB) (skip limit : Nat) :
    List SearchHistory :=
  crud.get_search_history db skip limit

end main

/-- The spec's formula for the embedded source text of a tool, stated on the
persisted row: `embed(name + " " + description + " " + join(tags))`. -/
def spec_embed_source (t : Tool) : String :=
  t.name ++ " " ++ t.description ++ " " ++ String.intercalate " " t.tags

/-- Look up the point stored under a given point id in the vector index
(observer used to state properties of the index contents). -/
def find_point (index : List VecEntry) (point_id : Nat) : Option VecEntry :=
  index.find? (fun e => e.id == point_id)

/-- Fixture: an embedding provider that is always reachable. -/
def provider_ok : String → Option Unit := fun _ => some ()

/-- Fixture: an embedding provider that is unreachable (always raises). -/
def provider_down : String → Option Unit := fun _ => none

/-- Fixture: a cosine similarity scoring every pair 1. -/
def sim_one : String → String → ℚ := fun _ _ => 1

/-- Fixture: a tool row. -/
def hammer : Tool :=
  { id := 1, name := "hammer", description := "drives nails",
    tags := ["hand"], tool_metadata := [] }

/-- Fixture: a second tool row. -/
def saw_tool : Tool :=
  { id := 2, name := "saw", description := "cuts wood", tags := [],
    tool_metadata := [] }

/-- Fixture: a tool row with the falsy id 0. -/
def zero_tool : Tool :=
  { id := 0, name := "ghost", description := "zero id row", tags := [],
    tool_metadata := [] }

/-- Fixture: create request for `saw_tool`. -/
def saw_create : ToolCreate :=
  { name := "saw", description := "cuts wood", tags := [],
    tool_metadata := [] }

/-- Fixture: update request whose name collides with `saw_tool`. -/
def tu_saw : ToolUpdate :=
  { name := "saw", description := "x", tags := [], tool_metadata := [] }

/-- Fixture: update request changing only the hammer description. -/
def tu_desc : ToolUpdate :=
  { name := "hammer", description := "hits nails", tags := ["hand"],
    tool_metadata := [] }

/-- Fixture: the hammer row after `tu_desc` is applied. -/
def hammer2 : Tool :=
  { id := 1, name := "hammer", description := "hits nails",
    tags := ["hand"], tool_metadata := [] }

/-- Fixture: search result snapshot for `hammer`. -/
def hammer_res : SearchResult :=
  { id := some 1, name := "hammer", description := "drives nails",
    tags := ["hand"], score := 1 }

/-- Fixture: search result snapshot with the falsy id 0. -/
def zero_res : SearchResult :=
  { id := some 0, name := "ghost", description := "zero id row",
    tags := [], score := 1 }

/-- Fixture: a stored history row containing `hammer_res`. -/
def hist_old : SearchHistory :=
  { id := 1, query := "old", results := [hammer_res] }

/-- Fixture: the read-time view of `hist_old` once hammer is deleted. -/
def hist_old_view : SearchHistory :=
  { id := 1, query := "old", results := [] }

/-- Fixture: the vector-index point for `hammer`. -/
def e1 : VecEntry :=
  { id := 1, text := "hammer drives nails hand", name := "hammer",
    description := "drives nails", tags := ["hand"], tool_id := 1 }

/-- Fixture: a vector-index point whose payload `tool_id` is 0. -/
def e0 : VecEntry :=
  { id := 7, text := "ghost zero id row ", name := "ghost",
    description := "zero id row", tags := [], tool_id := 0 }

/-- Fixture: an index holding only the hammer point. -/
def idx1 : List VecEntry := [e1]

/-- Fixture: record store holding only `hammer`. -/
def db_one : DB :=
  { tools := [hammer], history := [], next_tool_id := 2,
    next_history_id := 1 }

/-- Fixture: record store holding `hammer` and `saw_tool`. -/
def db_two : DB :=
  { tools := [hammer, saw_tool], history := [], next_tool_id := 3,
    next_history_id := 1 }

/-- Fixture: record store holding `hammer` plus the old history row. -/
def db_c1 : DB :=
  { tools := [hammer], history := [hist_old], next_tool_id := 2,
    next_history_id := 2 }

/-- Fixture: `db_c1` after hammer is deleted. -/
def db_c1' : DB :=
  { tools := [], history := [hist_old], next_tool_id := 2,
    next_history_id := 2 }

/-- Fixture: record store containing a tool with id 0. -/
def db_zero : DB :=
  { tools := [zero_tool, hammer], history := [hist_old],
    next_tool_id := 2, next_history_id := 2 }

/-- Fixture: the hammer row after the `tu_desc` update commits. -/
def db_ham2 : DB :=
  { tools := [hammer2], history := [], next_tool_id := 2,
    next_history_id := 1 }

/-- Fixture: index after upserting `saw_tool` into an empty index. -/
def idx_saw : List VecEntry :=
  [{ id := 2, text := "saw cuts wood ", name := "saw",
     description := "cuts wood", tags := [], tool_id := 2 }]

/-- Fixture: index after upserting `hammer2` into an empty index. -/
def idx_ham2 : List VecEntry :=
  [{ id := 1, text := "hammer hits nails hand", name := "hammer",
     description := "hits nails", tags := ["hand"], tool_id := 1 }]

/-- Fixture: an index holding only the point with payload `tool_id` 0. -/
def idx_z : List VecEntry := [e0]

/-- Fixture: history row written for query "q2" once the falsy-id result is
filtered out. -/
def hrec_z : SearchHistory :=
  { id := 2, query := "q2", results := [hammer_res] }

/-- Fixture: `db_zero` after the "q2" history row is committed. -/
def db2z : DB :=
  { tools := [zero_tool, hammer], history := [hist_old, hrec_z],
    next_tool_id := 2, next_history_id := 3 }

/-- Fixture: an empty search response. -/
def resp_empty : SearchResponse := { query := "q", results := [] }

/-- Fixture: response of searching `db_one` with `idx1` and `sim_one`. -/
def resp_h : SearchResponse :=
  { query := "nails", results := [hammer_res] }

section Lemmas

theorem mem_insert_desc {ge : α → α → Bool} {p x : α} {l : List α} :
    x ∈ vector_db.insert_desc ge p l ↔ x = p ∨ x ∈ l := by
  induction l with
  | nil => simp [vector_db.insert_desc]
  | cons q qs ih =>
    simp only [vector_db.insert_desc]
    split
    · simp
    · simp [ih]
      tauto

theorem mem_sort_desc {ge : α → α → Bool} {x : α} {l : List α} :
    x ∈ vector_db.sort_desc ge l ↔ x ∈ l := by
  induction l with
  | nil => simp [vector_db.sort_desc]
  | cons q qs ih => simp [vector_db.sort_desc, mem_insert_desc, ih]

theorem length_insert_desc {ge : α → α → Bool} (p : α) (l : List α) :
    (vector_db.insert_desc ge p l).length = l.length + 1 := by
  induction l with
  | nil => rfl
  | cons q qs ih =>
    simp only [vector_db.insert_desc]
    split
    · simp
    · simp [ih]

theorem length_sort_desc {ge : α → α → Bool} (l : List α) :
    (vector_db.sort_desc ge l).length = l.length := by
  induction l with
  | nil => rfl
  | cons q qs ih => simp [vector_db.sort_desc, length_insert_desc, ih]

theorem score_floor_of_mem_search_tools {provider : String → Option Unit}
    {sim : String → String → ℚ} {index : List VecEntry} {q : String}
    {lim : Nat} {r : SearchResult}
    (h : r ∈ vector_db.search_tools provider sim index q lim) :
    vector_db.score_threshold ≤ r.score := by
  unfold vector_db.search_tools at h
  cases hp : provider q with
  | none => rw [hp] at h; simp at h
  | some u =>
    rw [hp] at h
    obtain ⟨p, hp2, rfl⟩ := List.mem_map.mp h
    have hmem := List.mem_of_mem_take hp2
    have hfil := mem_sort_desc.mp hmem
    have := (List.mem_filter.mp hfil).2
    exact of_decide_eq_true this

theorem length_search_tools_le (provider : String → Option Unit)
    (sim : String → String → ℚ) (index : List VecEntry) (q : String)
    (lim : Nat) :
    (vector_db.search_tools provider sim index q lim).length ≤ lim := by
  unfold vector_db.search_tools
  cases provider q with
  | none => simp
  | some u =>
    simp only [List.length_map]
    exact List.length_take_le lim _

theorem find?_append_of_none {p : α → Bool} {l₁ l₂ : List α}
    (h : l₁.find? p = none) : (l₁ ++ l₂).find? p = l₂.find? p := by
  induction l₁ with
  | nil => rfl
  | cons x xs ih =>
    rw [List.find?_cons] at h
    cases hx : p x with
    | true => rw [hx] at h; simp at h
    | false =>
      rw [hx] at h
      simpa [List.find?_cons, hx] using ih h

theorem delete_tool_db_success {client_ok : Bool} {db : DB}
    {index : List VecEntry} {tool_id : Nat} {db' : DB}
    {index' : List VecEntry}
    (h : crud.delete_tool_db client_ok db index tool_id
          = (db', index', true)) :
    db' = { db with tools := db.tools.filter (fun t => t.id != tool_id) } := by
  unfold crud.delete_tool_db at h
  cases hg : crud.get_tool db tool_id with
  | none => rw [hg] at h; simp at h
  | some t => rw [hg] at h; exact (congrArg Prod.fst h).symm

theorem get_tool_none_after_delete {client_ok : Bool} {db : DB}
    {index : List VecEntry} {tool_id : Nat} {db' : DB}
    {index' : List VecEntry}
    (h : crud.delete_tool_db client_ok db index tool_id
          = (db', index', true)) :
    crud.get_tool db' tool_id = none := by
  have hdb := delete_tool_db_success h
  subst hdb
  unfold crud.get_tool
  rw [List.find?_eq_none]
  intro x hx
  have := (List.mem_filter.mp hx).2
  simp only [bne_iff_ne, ne_eq] at this
  simp [this]

theorem delete_tool_db_history {client_ok : Bool} {db : DB}
    {index : List VecEntry} {tool_id : Nat} {db' : DB}
    {index' : List VecEntry}
    (h : crud.delete_tool_db client_ok db index tool_id
          = (db', index', true)) :
    db'.history = db.history := by
  rw [delete_tool_db_success h]

theorem result_valid_false_of_get_tool_none {db : DB} {r : SearchResult}
    {n : Nat} (hid : r.id = some n) (h : crud.get_tool db n = none) :
    crud.result_valid db r = false := by
  simp [crud.result_valid, hid, h]

theorem result_valid_false_of_falsy {db : DB} {r : SearchResult}
    (h : r.id = none ∨ r.id = some 0) :
    crud.result_valid db r = false := by
  rcases h with h | h <;> simp [crud.result_valid, h]

theorem semantic_search_resp {provider : String → Option Unit}
    {sim : String → String → ℚ} {commit_ok : Bool} {db : DB}
    {index : List VecEntry} {q : String} {lim : Nat} {resp : SearchResponse}
    (h : (main.semantic_search provider sim commit_ok db index q lim).2
          = .ok resp) :
    resp = { query := q,
             results := (vector_db.search_tools provider sim index q
               lim).filter (crud.result_valid db) } := by
  unfold main.semantic_search at h
  simp only [ApiResult.ok.injEq] at h
  exact h.symm

theorem mem_history_results_valid {db : DB} {skip lim : Nat}
    {rec : SearchHistory} {r : SearchResult}
    (hrec : rec ∈ crud.get_search_history db skip lim)
    (hr : r ∈ rec.results) : crud.result_valid db r = true := by
  unfold crud.get_search_history at hrec
  obtain ⟨h0, _, rfl⟩ := List.mem_map.mp hrec
  exact (List.mem_filter.mp hr).2

theorem mem_semantic_results_valid {provider : String → Option Unit}
    {sim : String → String → ℚ} {commit_ok : Bool} {db : DB}
    {index : List VecEntry} {q : String} {lim : Nat} {resp : SearchResponse}
    {r : SearchResult}
    (h : (main.semantic_search provider sim commit_ok db index q lim).2
          = .ok resp)
    (hr : r ∈ resp.results) : crud.result_valid db r = true := by
  rw [semantic_search_resp h] at hr
  exact (List.mem_filter.mp hr).2

theorem mem_create_history_valid {commit_ok : Bool} {db : DB} {q : String}
    {results : List SearchResult} {db' : DB} {hrec : SearchHistory}
    {r : SearchResult}
    (h : crud.create_search_history commit_ok db q results = (db', some hrec))
    (hr : r ∈ hrec.results) : crud.result_valid db r = true := by
  unfold crud.create_search_history at h
  split at h
  · obtain ⟨-, h2⟩ := Prod.mk.injEq .. ▸ h
    cases h2
    exact (List.mem_filter.mp hr).2
  · simp at h

theorem valid_excludes_deleted {db : DB} {r : SearchResult} {tid : Nat}
    (hv : crud.result_valid db r = true)
    (hnone : crud.get_tool db tid = none) : r.id ≠ some tid := by
  intro hid
  rw [result_valid_false_of_get_tool_none hid hnone] at hv
  cases hv

theorem upsert_tool_failed {provider : String → Option Unit}
    {client_ok : Bool} {index : List VecEntry} {tool_id : Nat}
    {name description : String} {tags : List String}
    (h : (vector_db.upsert_tool provider client_ok index tool_id name
      description tags).2 = false) :
    (vector_db.upsert_tool provider client_ok index tool_id name
      description tags).1 = index := by
  unfold vector_db.upsert_tool at h ⊢
  cases hp : provider (vector_db.embed_text name description tags) with
  | none => rfl
  | some u =>
    rw [hp] at h
    cases client_ok with
    | false => rfl
    | true => simp at h

theorem create_tool_success {provider : String → Option Unit}
    {client_ok : Bool} {db : DB} {index : List VecEntry} {tc : ToolCreate}
    {db' : DB} {index' : List VecEntry} {t : Tool}
    (h : crud.create_tool provider client_ok db index tc
          = (db', index', some t)) :
    t = { id := db.next_tool_id, name := tc.name,
          description := tc.description, tags := tc.tags,
          tool_metadata := tc.tool_metadata } ∧
    db' = { db with tools := db.tools ++ [t],
                    next_tool_id := db.next_tool_id + 1 } ∧
    index' = (vector_db.upsert_tool provider client_ok index db.next_tool_id
      tc.name tc.description tc.tags).1 := by
  unfold crud.create_tool at h
  split at h
  · simp at h
  · simp only [Prod.mk.injEq, Option.some.injEq] at h
    obtain ⟨h1, h2, h3⟩ := h
    subst h3
    exact ⟨rfl, h1.symm, h2.symm⟩

theorem update_tool_success {provider : String → Option Unit}
    {client_ok : Bool} {db : DB} {index : List VecEntry} {tool_id : Nat}
    {tu : ToolUpdate} {db' : DB} {index' : List VecEntry} {t : Tool}
    (h : crud.update_tool provider client_ok db index tool_id tu
          = (db', index', some t)) :
    ∃ db_tool, crud.get_tool db tool_id = some db_tool ∧
      t = { db_tool with name := tu.name, description := tu.description,
                         tags := tu.tags, tool_metadata := tu.tool_metadata } ∧
      db' = { db with tools :=
                db.tools.map (fun o => if o.id == tool_id then t else o) } ∧
      index' = (vector_db.upsert_tool provider client_ok index t.id tu.name
        tu.description tu.tags).1 := by
  unfold crud.update_tool at h
  split at h
  · simp at h
  next db_tool heq =>
    split at h
    · simp at h
    · simp only [Prod.mk.injEq, Option.some.injEq] at h
      obtain ⟨h1, h2, h3⟩ := h
      subst h3
      exact ⟨db_tool, heq, rfl, h1.symm, h2.symm⟩

theorem find?_singleton_self (t : Tool) :
    List.find? (fun u => u.id == t.id) [t] = some t :=
  List.find?_cons_of_pos [] (by simp)

theorem get_tool_append_fresh {l : List Tool} {n : Nat}
    (hwf : ∀ u ∈ l, u.id < n) {t : Tool} (ht : t.id = n) :
    (l ++ [t]).find? (fun u => u.id == t.id) = some t := by
  rw [find?_append_of_none, find?_singleton_self]
  rw [List.find?_eq_none]
  intro u hu
  have := hwf u hu
  simp only [beq_iff_eq]
  omega

theorem find?_map_replace {l : List VecEntry} {e : VecEntry}
    (hany : l.any (fun x => x.id == e.id) = true) :
    (l.map (fun x => if x.id == e.id then e else x)).find?
      (fun x => x.id == e.id) = some e := by
  induction l with
  | nil => simp at hany
  | cons x xs ih =>
    simp only [List.map_cons]
    by_cases hx : (x.id == e.id) = true
    · rw [if_pos hx]
      exact List.find?_cons_of_pos _ (by simp)
    · rw [if_neg hx]
      rw [List.find?_cons_of_neg _ (by simpa using hx)]
      apply ih
      rw [Bool.not_eq_true] at hx
      simpa [List.any_cons, hx] using hany

theorem find_point_upsert_point (index : List VecEntry) (e : VecEntry) :
    find_point (vector_db.upsert_point index e) e.id = some e := by
  unfold vector_db.upsert_point find_point
  by_cases hany : (index.any (fun x => x.id == e.id)) = true
  · rw [if_pos hany]
    exact find?_map_replace hany
  · rw [if_neg hany]
    rw [Bool.not_eq_true] at hany
    rw [find?_append_of_none]
    · exact List.find?_cons_of_pos [] (by simp)
    · rw [List.find?_eq_none]
      intro x hx
      have := (List.any_eq_false.mp hany) x hx
      simpa using this

theorem update_tool_none_iff (provider : String → Option Unit)
    (client_ok : Bool) (db : DB) (index : List VecEntry) (tool_id : Nat)
    (tu : ToolUpdate) :
    (crud.update_tool provider client_ok db index tool_id tu).2.2 = none ↔
      (crud.get_tool db tool_id = none ∨
        ∃ o ∈ db.tools, o.name = tu.name ∧ o.id ≠ tool_id) := by
  cases hg : crud.get_tool db tool_id with
  | none => simp [crud.update_tool, hg]
  | some db_tool =>
    by_cases hany :
        (db.tools.any (fun o => o.name == tu.name && o.id != tool_id)) = true
    · have hex : ∃ o ∈ db.tools, o.name = tu.name ∧ o.id ≠ tool_id := by
        obtain ⟨o, ho, hp⟩ := List.any_eq_true.mp hany
        have hb : o.name = tu.name ∧ o.id ≠ tool_id := by simpa using hp
        exact ⟨o, ho, hb.1, hb.2⟩
      simp [crud.update_tool, hg, hany, hex]
    · have hnex : ¬ ∃ o ∈ db.tools, o.name = tu.name ∧ o.id ≠ tool_id := by
        rintro ⟨o, ho, hname, hid⟩
        exact hany (List.any_eq_true.mpr ⟨o, ho, by simp [hname, hid]⟩)
      simp [crud.update_tool, hg, hany, hnex]

theorem main_update_err_iff (provider : String → Option Unit)
    (client_ok : Bool) (db : DB) (index : List VecEntry) (tool_id : Nat)
    (tu : ToolUpdate) :
    (main.update_tool provider client_ok db index tool_id tu).2.2
        = .err (.notFound "Tool not found or name already exists") ↔
      (crud.update_tool provider client_ok db index tool_id tu).2.2
        = none := by
  unfold main.update_tool
  cases h : (crud.update_tool provider client_ok db index tool_id tu).2.2 with
  | none => simp [h]
  | some t => simp [h]

theorem main_create_ok {provider : String → Option Unit} {client_ok : Bool}
    {db : DB} {index : List VecEntry} {tc : ToolCreate} {db' : DB}
    {index' : List VecEntry} {t : Tool}
    (h : crud.create_tool provider client_ok db index tc
          = (db', index', some t)) :
    (main.create_tool provider client_ok db index tc).2.2 = .ok t := by
  unfold main.create_tool
  rw [h]

theorem upsert_tool_available {provider : String → Option Unit}
    {index : List VecEntry} {tool_id : Nat} {name description : String}
    {tags : List String} (hprov : ∀ s, (provider s).isSome) :
    vector_db.upsert_tool provider true index tool_id name description tags
      = (vector_db.upsert_point index
          { id := tool_id,
            text := vector_db.embed_text name description tags,
            name := name, description := description, tags := tags,
            tool_id := tool_id }, true) := by
  unfold vector_db.upsert_tool
  cases hp : provider (vector_db.embed_text name description tags) with
  | none => have := hprov (vector_db.embed_text name description tags); rw [hp] at this; cases this
  | some u => rfl

end Lemmas

section Claims

/-- C1: after `Delete(t.id)` succeeds, a subsequent Search with any query
and a subsequent ListHistory never include the deleted tool in their
returned results — even when the vector index passed to the search still
holds a stale entry keyed by that id — because both read paths re-check
each candidate id against the Record Store. -/
theorem claim_C1_read_after_delete
    (client_ok : Bool) (db : DB) (index : List VecEntry) (tid : Nat)
    (db' : DB) (index' : List VecEntry) (provider : String → Option Unit)
    (sim : String → String → ℚ) (commit_ok : Bool) (idx2 : List VecEntry)
    (q : String) (lim : Nat) (resp : SearchResponse) (skip hl : Nat)
    (rec : SearchHistory)
    (hdel : crud.delete_tool_db client_ok db index tid = (db', index', true))
    (hresp : (main.semantic_search provider sim commit_ok db' idx2 q lim).2
              = .ok resp)
    (hrec : rec ∈ crud.get_search_history db' skip hl) :
    (∀ r ∈ resp.results, r.id ≠ some tid) ∧
    (∀ r ∈ rec.results, r.id ≠ some tid) := by
  have hnone := get_tool_none_after_delete hdel
  constructor
  · intro r hr
    exact valid_excludes_deleted (mem_semantic_results_valid hresp hr) hnone
  · intro r hr
    exact valid_excludes_deleted (mem_history_results_valid hrec hr) hnone

/-- C1 witness: deleting hammer from `db_c1`, then searching against the
stale index `idx1` and listing history, excludes id 1 everywhere. -/
theorem claim_C1_witness :
    (∀ r ∈ resp_empty.results, r.id ≠ some 1) ∧
    (∀ r ∈ hist_old_view.results, r.id ≠ some 1) :=
  claim_C1_read_after_delete true db_c1 idx1 1 db_c1' [] provider_ok
    sim_one true idx1 "q" 10 resp_empty 0 10 hist_old_view (by decide)
    (by decide) (by decide)

/-- C2 counterexample: with the embedding provider unreachable,
`search_tools` swallows the failure and returns `[]`, and the Search
endpoint returns a successful response with empty results instead of
failing — the claim that the call fails with `EmbeddingUnavailable` is
false on the code. -/
theorem claim_C2_counterexample :
    vector_db.search_tools provider_down sim_one idx1 "nails" 10 = [] ∧
    (main.semantic_search provider_down sim_one true db_one idx1 "nails"
      10).2 = .ok { query := "nails", results := [] } := by
  constructor
  · rfl
  · decide

/-- C2 amended: if the embedding provider is unreachable when Search runs,
`search_tools` returns no partial results (it returns `[]`), and the
enclosing call does not fail — it returns a successful response with an
empty result list. -/
theorem claim_C2_embedding_down_empty_success
    (provider : String → Option Unit) (sim : String → String → ℚ)
    (commit_ok : Bool) (db : DB) (index : List VecEntry) (q : String)
    (lim : Nat) (hdown : provider q = none) :
    vector_db.search_tools provider sim index q lim = [] ∧
    (main.semantic_search provider sim commit_ok db index q lim).2
      = .ok { query := q, results := [] } := by
  have hs : vector_db.search_tools provider sim index q lim = [] := by
    unfold vector_db.search_tools
    rw [hdown]
  refine ⟨hs, ?_⟩
  unfold main.semantic_search
  simp [hs]

/-- C2 amended witness: concrete unreachable provider. -/
theorem claim_C2_witness :
    provider_down "nails" = none ∧
    (vector_db.search_tools provider_down sim_one idx1 "nails" 10 = [] ∧
     (main.semantic_search provider_down sim_one true db_one idx1 "nails"
       10).2 = .ok { query := "nails", results := [] }) :=
  ⟨rfl, claim_C2_embedding_down_empty_success provider_down sim_one true
    db_one idx1 "nails" 10 rfl⟩

/-- C3: when the Record Store insert of Create commits and the subsequent
vector-index upsert fails, the Tool row still exists afterward (retrievable
by its id), the index is unchanged, and the endpoint reports success. -/
theorem claim_C3_degraded_create
    (provider : String → Option Unit) (client_ok : Bool) (db : DB)
    (index : List VecEntry) (tc : ToolCreate) (db' : DB)
    (index' : List VecEntry) (t : Tool)
    (hwf : ∀ u ∈ db.tools, u.id < db.next_tool_id)
    (hc : crud.create_tool provider client_ok db index tc
          = (db', index', some t))
    (hfail : (vector_db.upsert_tool provider client_ok index t.id t.name
      t.description t.tags).2 = false) :
    crud.get_tool db' t.id = some t ∧
    index' = index ∧
    (main.create_tool provider client_ok db index tc).2.2 = .ok t := by
  obtain ⟨ht, hdb, hidx⟩ := create_tool_success hc
  subst ht
  refine ⟨?_, ?_, main_create_ok hc⟩
  · rw [hdb]
    exact get_tool_append_fresh hwf rfl
  · rw [hidx]
    exact upsert_tool_failed hfail

/-- C3 witness: creating `saw_tool` with the index client down leaves the
row retrievable, the index untouched, and the endpoint returning 201. -/
theorem claim_C3_witness :
    crud.get_tool db_two saw_tool.id = some saw_tool ∧
    ([] : List VecEntry) = [] ∧
    (main.create_tool provider_ok false db_one [] saw_create).2.2
      = .ok saw_tool :=
  claim_C3_degraded_create provider_ok false db_one [] saw_create db_two []
    saw_tool (by decide) (by decide) (by decide)

/-- C4 counterexample: updating a missing id (99) and updating hammer to
the name of `saw_tool` are two different failure causes — the first is a
NotFound, the second a DuplicateName — yet the two endpoint calls produce
identical outputs (same 404 error, same state), so the causes are not
distinguishable in the result surfaced to the caller. -/
theorem claim_C4_counterexample :
    crud.get_tool db_two 99 = none ∧
    crud.get_tool db_two 1 = some hammer ∧
    (db_two.tools.any (fun o => o.name == tu_saw.name && o.id != 1))
      = true ∧
    main.update_tool provider_ok true db_two [] 99 tu_saw
      = main.update_tool provider_ok true db_two [] 1 tu_saw ∧
    (main.update_tool provider_ok true db_two [] 1 tu_saw).2.2
      = .err (.notFound "Tool not found or name already exists") := by
  decide

/-- C4 amended: Update fails exactly when no Tool with the id exists or the
new name collides with a different existing Tool, but both causes surface
to the caller as one and the same 404 error "Tool not found or name already
exists" — they are not distinguishable. -/
theorem claim_C4_update_failure_merged (provider : String → Option Unit)
    (client_ok : Bool) (db : DB) (index : List VecEntry) (tool_id : Nat)
    (tu : ToolUpdate) :
    (main.update_tool provider client_ok db index tool_id tu).2.2
        = .err (.notFound "Tool not found or name already exists") ↔
      (crud.get_tool db tool_id = none ∨
        ∃ o ∈ db.tools, o.name = tu.name ∧ o.id ≠ tool_id) :=
  (main_update_err_iff provider client_ok db index tool_id tu).trans
    (update_tool_none_iff provider client_ok db index tool_id tu)

/-- C5: no element of a Search response has a similarity score below the
configured floor, which is 0.3 = 3/10. -/
theorem claim_C5_score_floor (provider : String → Option Unit)
    (sim : String → String → ℚ) (commit_ok : Bool) (db : DB)
    (index : List VecEntry) (q : String) (lim : Nat)
    (resp : SearchResponse)
    (h : (main.semantic_search provider sim commit_ok db index q lim).2
          = .ok resp) :
    vector_db.score_threshold = 3 / 10 ∧
    ∀ r ∈ resp.results, vector_db.score_threshold ≤ r.score := by
  constructor
  · rw [show vector_db.score_threshold = ((3 : ℤ) : ℚ) / ((10 : ℕ) : ℚ)
      from (Rat.num_div_den _).symm]
    norm_num
  · intro r hr
    rw [semantic_search_resp h] at hr
    exact score_floor_of_mem_search_tools (List.mem_filter.mp hr).1

/-- C5 witness: a concrete search whose one result scores 1 ≥ 3/10. -/
theorem claim_C5_witness :
    vector_db.score_threshold = 3 / 10 ∧
    ∀ r ∈ resp_h.results, vector_db.score_threshold ≤ r.score :=
  claim_C5_score_floor provider_ok sim_one true db_one idx1 "nails" 10
    resp_h (by decide)

end Claims

section ClaimsTwo

/-- C6: the number of results returned by Search is at most the limit; the
existence filter and the score floor only shrink the candidate list and no
extra candidates are fetched to backfill. -/
theorem claim_C6_limit_upper_bound (provider : String → Option Unit)
    (sim : String → String → ℚ) (commit_ok : Bool) (db : DB)
    (index : List VecEntry) (q : String) (lim : Nat)
    (resp : SearchResponse)
    (h : (main.semantic_search provider sim commit_ok db index q lim).2
          = .ok resp) :
    resp.results.length ≤ lim := by
  have he := semantic_search_resp h
  subst he
  exact le_trans (List.length_filter_le _ _)
    (length_search_tools_le provider sim index q lim)

/-- C6 witness: a concrete search returning one result under limit 10. -/
theorem claim_C6_witness : resp_h.results.length ≤ 10 :=
  claim_C6_limit_upper_bound provider_ok sim_one true db_one idx1 "nails"
    10 resp_h (by decide)

/-- C7: deleting a tool that appears in a stored history row leaves the
stored row (and its results list) unmodified in the Record Store, while a
later ListHistory read returns views with every result of that tool
filtered out — the filtering is applied at read time, not by mutating
persisted history. -/
theorem claim_C7_history_frame
    (client_ok : Bool) (db : DB) (index : List VecEntry) (tid : Nat)
    (db' : DB) (index' : List VecEntry) (rec0 : SearchHistory)
    (r0 : SearchResult) (skip lim : Nat)
    (hrec : rec0 ∈ db.history) (hr : r0 ∈ rec0.results)
    (hid : r0.id = some tid)
    (hdel : crud.delete_tool_db client_ok db index tid
            = (db', index', true)) :
    db'.history = db.history ∧
    (rec0 ∈ db'.history ∧ r0 ∈ rec0.results) ∧
    (∀ rec ∈ crud.get_search_history db' skip lim,
       ∀ r ∈ rec.results, r ≠ r0) := by
  have hh := delete_tool_db_history hdel
  have hnone := get_tool_none_after_delete hdel
  refine ⟨hh, ⟨hh.symm ▸ hrec, hr⟩, ?_⟩
  intro rec hrec2 r hrr heq
  exact (valid_excludes_deleted (mem_history_results_valid hrec2 hrr)
    hnone) (by rw [heq, hid])

/-- C7 witness: hammer is deleted; the stored history row keeps its result
while the read view drops it. -/
theorem claim_C7_witness :
    db_c1'.history = db_c1.history ∧
    (hist_old ∈ db_c1'.history ∧ hammer_res ∈ hist_old.results) ∧
    (∀ rec ∈ crud.get_search_history db_c1' 0 10,
       ∀ r ∈ rec.results, r ≠ hammer_res) :=
  claim_C7_history_frame true db_c1 idx1 1 db_c1' [] hist_old hammer_res
    0 10 (by decide) (by decide) (by decide) (by decide)

/-- C8: the search response does not depend on whether the history write
commits — a history-write failure never propagates as a failure of Search,
and the response is exactly the filtered search results either way. -/
theorem claim_C8_history_best_effort (provider : String → Option Unit)
    (sim : String → String → ℚ) (db : DB) (index : List VecEntry)
    (q : String) (lim : Nat) :
    (main.semantic_search provider sim false db index q lim).2
      = (main.semantic_search provider sim true db index q lim).2 ∧
    (main.semantic_search provider sim false db index q lim).2
      = .ok { query := q,
              results := (vector_db.search_tools provider sim index q
                lim).filter (crud.result_valid db) } :=
  ⟨rfl, rfl⟩

/-- C9: on every successful create and update (with the provider reachable
and the index client up), the vector index stores under the tool's id a
point whose embedded text is exactly
`name ++ " " ++ description ++ " " ++ join(tags)` re-derived from the
persisted row, with the payload mirroring the persisted fields. -/
theorem claim_C9_embedding_source
    (provider : String → Option Unit) (db : DB) (index : List VecEntry)
    (tc : ToolCreate) (db₁ : DB) (index₁ : List VecEntry) (t₁ : Tool)
    (tid : Nat) (tu : ToolUpdate) (db₂ : DB) (index₂ : List VecEntry)
    (t₂ : Tool)
    (hprov : ∀ s, (provider s).isSome)
    (hc : crud.create_tool provider true db index tc
          = (db₁, index₁, some t₁))
    (hu : crud.update_tool provider true db index tid tu
          = (db₂, index₂, some t₂)) :
    (t₁ ∈ db₁.tools ∧
      find_point index₁ t₁.id = some
        { id := t₁.id, text := spec_embed_source t₁, name := t₁.name,
          description := t₁.description, tags := t₁.tags,
          tool_id := t₁.id }) ∧
    (t₂ ∈ db₂.tools ∧
      find_point index₂ t₂.id = some
        { id := t₂.id, text := spec_embed_source t₂, name := t₂.name,
          description := t₂.description, tags := t₂.tags,
          tool_id := t₂.id }) := by
  constructor
  · obtain ⟨ht, hdb, hidx⟩ := create_tool_success hc
    subst ht
    constructor
    · simp [hdb]
    · rw [hidx, upsert_tool_available hprov]
      exact find_point_upsert_point index _
  · obtain ⟨db_tool, hg, ht, hdb, hidx⟩ := update_tool_success hu
    subst ht
    constructor
    · rw [hdb]
      exact List.mem_map.mpr ⟨db_tool, List.mem_of_find?_eq_some hg,
        by simp [List.find?_some hg]⟩
    · rw [hidx, upsert_tool_available hprov]
      exact find_point_upsert_point index _

/-- C9 witness: creating `saw_tool` and updating hammer's description both
store points embedding exactly the persisted fields' combined text. -/
theorem claim_C9_witness :
    (saw_tool ∈ db_two.tools ∧
      find_point idx_saw saw_tool.id = some
        { id := saw_tool.id, text := spec_embed_source saw_tool,
          name := saw_tool.name, description := saw_tool.description,
          tags := saw_tool.tags, tool_id := saw_tool.id }) ∧
    (hammer2 ∈ db_ham2.tools ∧
      find_point idx_ham2 hammer2.id = some
        { id := hammer2.id, text := spec_embed_source hammer2,
          name := hammer2.name, description := hammer2.description,
          tags := hammer2.tags, tool_id := hammer2.id }) :=
  claim_C9_embedding_source provider_ok db_one [] saw_create db_two idx_saw
    saw_tool 1 tu_desc db_ham2 idx_ham2 hammer2 (fun s => rfl) (by decide)
    (by decide)

/-- C10: a candidate whose id field is absent or 0 is discarded by the
existence filter of Search, of history writing, and of ListHistory,
unconditionally — even when a Tool with id 0 exists in the Record Store —
because the filter tests the truthiness of the id before the lookup. -/
theorem claim_C10_falsy_id_discarded
    (db : DB) (r : SearchResult) (provider : String → Option Unit)
    (sim : String → String → ℚ) (commit_ok : Bool) (index : List VecEntry)
    (q : String) (lim : Nat) (resp : SearchResponse) (commit_ok2 : Bool)
    (q2 : String) (results : List SearchResult) (db2 : DB)
    (hrec : SearchHistory) (skip lim2 : Nat) (rec2 : SearchHistory)
    (hid : r.id = none ∨ r.id = some 0)
    (hresp : (main.semantic_search provider sim commit_ok db index q
      lim).2 = .ok resp)
    (hhist : crud.create_search_history commit_ok2 db q2 results
             = (db2, some hrec))
    (hmem : rec2 ∈ crud.get_search_history db skip lim2) :
    crud.result_valid db r = false ∧
    r ∉ resp.results ∧ r ∉ hrec.results ∧ r ∉ rec2.results := by
  have hv := @result_valid_false_of_falsy db r hid
  refine ⟨hv, ?_, ?_, ?_⟩
  · intro hmem2
    have hvt := mem_semantic_results_valid hresp hmem2
    simp [hvt] at hv
  · intro hmem2
    have hvt := mem_create_history_valid hhist hmem2
    simp [hvt] at hv
  · intro hmem2
    have hvt := mem_history_results_valid hmem hmem2
    simp [hvt] at hv

/-- C10 witness: `db_zero` contains a tool with id 0, yet the result with
id 0 is discarded by all three read/write filters. -/
theorem claim_C10_witness :
    crud.result_valid db_zero zero_res = false ∧
    zero_res ∉ resp_empty.results ∧ zero_res ∉ hrec_z.results ∧
    zero_res ∉ hist_old.results :=
  claim_C10_falsy_id_discarded db_zero zero_res provider_ok sim_one true
    idx_z "q" 10 resp_empty true "q2" [zero_res, hammer_res] db2z hrec_z
    0 10 hist_old (by decide) (by decide) (by decide) (by decide)

end ClaimsTwo
